import Mathlib

/-!
Verification model of the GuardBotV2 services (GuardBackand broker and
GuardBot gateway).  Each definition is a shallow embedding of the Python
function of the same name; machine-level concerns (network transport,
SQLAlchemy sessions, the aiohttp event loop) are modelled as explicit
parameters: a fallible outbound call becomes an `Except` valued argument,
the relational store becomes an in-memory list of rows, and a handler's
HTTP answer becomes an explicit response value.
-/

/-- A JSON value, as produced by `json.dumps` / `web.json_response` in the
sources.  Only the shapes the services actually emit are needed. -/
inductive Json where
  | str : String → Json
  | int : Int → Json
  | arr : List Json → Json
  | obj : List (String × Json) → Json

/-- An HTTP response as seen on the wire: status code plus JSON body. -/
structure HttpResponse where
  status_code : Nat
  body : Json

/-! ## Broker data model (`GuardBackand/main.py`, SQLAlchemy tables) -/

/-- A row of the `messages` table. -/
structure MessageRec where
  user_id : Int
  server_id : Int
  content : String
deriving DecidableEq, Repr

/-- A row of the `users` table. -/
structure UserRec where
  discord_id : Int
  username : String
deriving DecidableEq, Repr

/-- A row of the `servers` table. -/
structure ServerRec where
  discord_id : Int
  name : String
deriving DecidableEq, Repr

/-- The broker database: the three tables, each as an ordered list of rows
(query order of `.first()` follows list order). -/
structure DB where
  users : List UserRec
  servers : List ServerRec
  messages : List MessageRec
deriving DecidableEq, Repr

/-- The `filter_by(user_id=u, server_id=s)` predicate on message rows. -/
def msgKeyMatch (u s : Int) (m : MessageRec) : Bool :=
  m.user_id == u && m.server_id == s

/-- `db.query(Message).filter_by(user_id=u, server_id=s).first()`. -/
def findMessage (db : DB) (u s : Int) : Option MessageRec :=
  db.messages.find? (msgKeyMatch u s)

/-- Mutating `message.content = c` on the first row matching the key,
as the ORM update does after a `.first()` fetch. -/
def setFirstContent (u s : Int) (c : String) : List MessageRec → List MessageRec
  | [] => []
  | m :: rest =>
    if msgKeyMatch u s m then { m with content := c } :: rest
    else m :: setFirstContent u s c rest

/-- The error body every broker handler builds in its `except` branch:
key `status` mapped to `"error"` and key `error` mapped to `str(e)`. -/
def errorBody (e : String) : Json :=
  Json.obj [("status", Json.str "error"), ("error", Json.str e)]

/-- `POST /message/save` (`save_message`): upsert the row keyed by
`(user_id, server_id)` and answer 200 `status: save`. -/
def save_message (db : DB) (u s : Int) (c : String) : HttpResponse × DB :=
  let messages :=
    match findMessage db u s with
    | some _ => setFirstContent u s c db.messages
    | none => db.messages ++ [⟨u, s, c⟩]
  (⟨200, Json.obj [("status", Json.str "save")]⟩, { db with messages := messages })

/-- `POST /message/reset` (`reset_message`): if the row exists, set its
content to `"Default message"` and answer 200; otherwise answer 404 with
`status: message not found` and write nothing. -/
def reset_message (db : DB) (u s : Int) : HttpResponse × DB :=
  match findMessage db u s with
  | some _ =>
      (⟨200, Json.obj [("status", Json.str "reset")]⟩,
        { db with messages := setFirstContent u s "Default message" db.messages })
  | none =>
      (⟨404, Json.obj [("status", Json.str "message not found")]⟩, db)

/-- The `str(e)` of the `AttributeError` raised by `message.content` when
the query returned `None` (`get_message` on an absent row). -/
def attrErrorNone : String := "AttributeError: NoneType object has no attribute content"

/-- The `str(e)` of the starlette `HTTPException(404, "Message not found")`
that `send_message` raises and then swallows in its own `except` branch. -/
def notFoundExnText : String := "404: Message not found"

/-- `GET /message/get` (`get_message`): answer 200 with the row content;
on an absent row the handler dereferences `None.content`, and the resulting
`AttributeError` is caught by the handler's catch-all, producing a 500. -/
def get_message (db : DB) (u s : Int) : HttpResponse :=
  match findMessage db u s with
  | some m => ⟨200, Json.obj [("status", Json.str "success"), ("content", Json.str m.content)]⟩
  | none => ⟨500, errorBody attrErrorNone⟩

/-- `POST /message/send` (`send_message`): look up the stored content, then
proxy to the gateway `/send_message`.  An absent row (or empty content)
raises `HTTPException(404)`, which the handler's own `except Exception`
catches, so the wire answer is a 500 error body.  The gateway call is the
`gw` parameter: `Except.error` models a raised network/JSON failure, and a
successful call yields the upstream status and parsed JSON answer, which
the handler re-wraps. -/
def send_message (db : DB) (u s ch : Int)
    (gw : Int → Int → Int → String → Except String (Nat × Json)) : HttpResponse × DB :=
  match findMessage db u s with
  | none => (⟨500, errorBody notFoundExnText⟩, db)
  | some m =>
    if m.content == "" then (⟨500, errorBody notFoundExnText⟩, db)
    else
      match gw u s ch m.content with
      | Except.error e => (⟨500, errorBody e⟩, db)
      | Except.ok (status, resp) =>
          (⟨status,
            Json.obj
              [("status", Json.str (if status == 200 then "success" else "error")),
               ("answer", resp)]⟩, db)

/-! ## Gateway data model (`GuardBot/main.py`) -/

/-- A channel of a guild as held by the gateway process. -/
structure BotChannel where
  id : Int
  name : String
deriving DecidableEq, Repr

/-- A member of a guild as held by the gateway process. -/
structure BotMember where
  id : Int
  name : String
deriving DecidableEq, Repr

/-- A guild the gateway process is joined to, with its live channel and
member lists. -/
structure BotGuild where
  id : Int
  name : String
  channels : List BotChannel
  members : List BotMember
deriving DecidableEq, Repr

/-- The gateway's live membership state (`self.guilds` of the discord
client). -/
abbrev BotState := List BotGuild

/-- `self.get_guild(i)`: the joined guild with the given id, if any. -/
def get_guild (st : BotState) (i : Int) : Option BotGuild :=
  st.find? (fun g => g.id == i)

/-- `server.get_member(i)`. -/
def get_member (g : BotGuild) (i : Int) : Option BotMember :=
  g.members.find? (fun m => m.id == i)

/-- `server.get_channel(i)`. -/
def get_channel (g : BotGuild) (i : Int) : Option BotChannel :=
  g.channels.find? (fun c => c.id == i)

/-- The observable effect of `channel.send(embed=...)` in `handle_send`. -/
structure SentMessage where
  channel_id : Int
  author_id : Int
  content : String
deriving DecidableEq, Repr

/-- `POST /send_message` (`GuardBot.handle_send`): resolve server, then
member, then channel, answering 404 with an entity-naming error body at the
first missing one; only when all three resolve is the embed posted (the
`Option SentMessage` component). -/
def handle_send (st : BotState) (user_id server_id channel_id : Int) (content : String) :
    HttpResponse × Option SentMessage :=
  match get_guild st server_id with
  | none => (⟨404, errorBody "Server not found"⟩, none)
  | some server =>
    match get_member server user_id with
    | none => (⟨404, errorBody "User not found"⟩, none)
    | some _ =>
      match get_channel server channel_id with
      | none => (⟨404, errorBody "System channel not found"⟩, none)
      | some _ =>
          (⟨200, Json.obj [("success", Json.str "sent")]⟩,
            some ⟨channel_id, user_id, content⟩)

/-- A raw guild descriptor as supplied by the identity provider and passed
through the broker to the gateway: the `id` and `name` fields the code
reads, plus the descriptor's remaining fields carried opaquely. -/
structure RawGuild where
  id : Int
  name : String
  extra : List (String × String)
deriving DecidableEq, Repr

/-- One value of the `approved_guild` mapping built by
`handle_guild_request`: `id` and `name` are read from the raw descriptor,
the raw descriptor itself is stored under `guild`, and `channels` /
`members` are keyed snapshots of the live bot guild. -/
structure ApprovedEntry where
  id : Int
  name : String
  guild : RawGuild
  channels : List (Int × BotChannel)
  members : List (Int × BotMember)
deriving DecidableEq, Repr

/-- The dict comprehension over `bot_guild.channels`. -/
def channelEntries (g : BotGuild) : List (Int × BotChannel) :=
  g.channels.map (fun c => (c.id, c))

/-- The dict comprehension over `bot_guild.members`. -/
def memberEntries (g : BotGuild) : List (Int × BotMember) :=
  g.members.map (fun m => (m.id, m))

/-- The `approved_guild[int(guild["id"])] = ...` record. -/
def mkEntry (g : RawGuild) (bg : BotGuild) : ApprovedEntry :=
  ⟨g.id, g.name, g, channelEntries bg, memberEntries bg⟩

/-- Python dict assignment: replace the value at an existing key in place,
else append the binding. -/
def dictInsert (k : Int) (v : ApprovedEntry) :
    List (Int × ApprovedEntry) → List (Int × ApprovedEntry)
  | [] => [(k, v)]
  | (k2, v2) :: rest =>
      if k2 == k then (k, v) :: rest else (k2, v2) :: dictInsert k v rest

/-- The `for guild in guilds` loop of `handle_guild_request`, threading the
`approved_guild` dict. -/
def overhaulLoop (st : BotState) :
    List RawGuild → List (Int × ApprovedEntry) → List (Int × ApprovedEntry)
  | [], acc => acc
  | g :: rest, acc =>
    match get_guild st g.id with
    | some bg => overhaulLoop st rest (dictInsert g.id (mkEntry g bg) acc)
    | none => overhaulLoop st rest acc

/-- `POST /overhaul_guilds` (`GuardBot.handle_guild_request`): filter the
raw guild list by live membership and enrich each kept entry.  The
serialised `approved` mapping of the HTTP answer is exactly this
association list. -/
def handle_guild_request (st : BotState) (raw : List RawGuild) :
    List (Int × ApprovedEntry) :=
  overhaulLoop st raw []

/-- The guild-id column of an approved mapping. -/
def approvedIds (l : List (Int × ApprovedEntry)) : List Int :=
  l.map Prod.fst

/-! ## Broker session model (`GuardBackand/main.py`, `sessions` dict) -/

/-- One value of the module-level `sessions` dict, created at callback
completion. -/
structure SessionRec where
  host : String
  user_id : Int
  guilds : List RawGuild
deriving DecidableEq, Repr

/-- The module-level `sessions` dict, state token → session record. -/
abbrev SessionStore := List (String × SessionRec)

/-- `state in sessions` / `sessions[state]`. -/
def lookupSession (store : SessionStore) (t : String) : Option SessionRec :=
  (store.find? (fun p => p.1 == t)).map Prod.snd

/-- `sessions[state] = record` (dict assignment: replace or append). -/
def sessionPut (t : String) (s : SessionRec) : SessionStore → SessionStore
  | [] => [(t, s)]
  | (t2, s2) :: rest =>
      if t2 == t then (t, s) :: rest else (t2, s2) :: sessionPut t s rest

/-- What a broker handler lets cross the wire: either a response, or — when
the handler body has no `try`/`except` — an uncaught exception that escapes
the handler. -/
inductive HandlerOutcome where
  | response : HttpResponse → HandlerOutcome
  | uncaught : String → HandlerOutcome

/-- The `unauthorized_response()` helper: 401 with the single-field
`status: Unauthorized` body, used identically for an unknown token and for
a host mismatch. -/
def unauthorized_response : HttpResponse :=
  ⟨401, Json.obj [("status", Json.str "Unauthorized")]⟩

/-- The 200 body of `get_session`: stored user id plus the guild mapping
parsed from the gateway's `approved` field. -/
def sessionSuccess (uid : Int) (guilds : Json) : HttpResponse :=
  ⟨200, Json.obj
    [("status", Json.str "success"), ("user_id", Json.int uid), ("guilds", guilds)]⟩

/-- `GET /user/session` (`get_session`): reject a missing/empty/unknown
state token and a host mismatch with the shared unauthorized response; on a
bound match, call the gateway `/overhaul_guilds` with the stored raw guild
list (`gw`, covering the POST, the `approved` field access, and
`json.loads`).  This handler has no `try`/`except`: a failing gateway call
escapes uncaught. -/
def get_session (store : SessionStore) (state : Option String) (host : String)
    (gw : List RawGuild → Except String Json) : HandlerOutcome :=
  match state with
  | none => HandlerOutcome.response unauthorized_response
  | some st =>
    if st == "" then HandlerOutcome.response unauthorized_response
    else
      match lookupSession store st with
      | none => HandlerOutcome.response unauthorized_response
      | some sess =>
        if sess.host != host then HandlerOutcome.response unauthorized_response
        else
          match gw sess.guilds with
          | Except.error e => HandlerOutcome.uncaught e
          | Except.ok guilds => HandlerOutcome.response (sessionSuccess sess.user_id guilds)

/-! ## Broker OAuth callback (`GuardBackand/main.py`, `auth_callback`) -/

/-- The identity record fetched from `https://discord.com/api/users/@me`. -/
structure UserData where
  id : Int
  username : String
deriving DecidableEq, Repr

/-- An upstream HTTP fetch: the provider's status code and (when consumed)
its parsed body. -/
structure FetchResp (α : Type) where
  status : Nat
  body : α
deriving DecidableEq, Repr

/-- Everything `auth_callback` observes from outside its own request:
the `oauth_state` stored in the cookie session at login, the result of
`authorize_access_token` (`Except.error` models a raised authlib failure),
the two provider fetches, and `request.client.host`. -/
structure CallbackEnv where
  oauth_state : Option String
  tokenResult : Except String String
  identity : FetchResp UserData
  guildFetch : FetchResp (List RawGuild)
  host : String

/-- What the callback handler finally returns to the browser. -/
inductive CallbackResult where
  | redirect : String → CallbackResult
  | httpError : Nat → String → CallbackResult
deriving DecidableEq, Repr

/-- Status component of a callback result (the HTTP status of the
`HTTPException`, `none` for a redirect). -/
def resultStatus : CallbackResult → Option Nat
  | CallbackResult.redirect _ => none
  | CallbackResult.httpError n _ => some n

/-- Python truthiness test used on the `state` parameter and the stored
`oauth_state`: `None` and the empty string are falsy. -/
def falsyState : Option String → Bool
  | none => true
  | some s => s == ""

/-- `db.query(User).filter_by(discord_id=i).first()`. -/
def findUser (db : DB) (i : Int) : Option UserRec :=
  db.users.find? (fun u => u.discord_id == i)

/-- `db.query(Server).filter_by(discord_id=i).first()`. -/
def findServer (db : DB) (i : Int) : Option ServerRec :=
  db.servers.find? (fun sv => sv.discord_id == i)

/-- The user upsert of `auth_callback`: add the row only when absent. -/
def upsertUser (db : DB) (i : Int) (nm : String) : DB :=
  match findUser db i with
  | some _ => db
  | none => { db with users := db.users ++ [⟨i, nm⟩] }

/-- The `for guild in guilds` server-upsert loop of `auth_callback`. -/
def upsertServers : DB → List RawGuild → DB
  | db, [] => db
  | db, g :: rest =>
      upsertServers
        (match findServer db g.id with
         | some _ => db
         | none => { db with servers := db.servers ++ [⟨g.id, g.name⟩] })
        rest

/-- The `try` block of `auth_callback` (`GET /auth/callback`): the guard
checks and the happy path.  An error carries the `HTTPException` raised
inside the block — `(400, missing state)`, `(400, invalid state)`, or the
upstream status for a failed fetch — together with the database and session
store as already committed at the raise point. -/
def auth_callback_try (env : CallbackEnv) (state : Option String)
    (db : DB) (store : SessionStore) :
    Except ((Nat × String) × DB × SessionStore) (CallbackResult × DB × SessionStore) :=
  if falsyState state then Except.error ((400, "Missing state parameter"), db, store)
  else
    match state with
    | none => Except.error ((400, "Missing state parameter"), db, store)
    | some st =>
      if falsyState env.oauth_state || env.oauth_state != some st then
        Except.error ((400, "Invalid state"), db, store)
      else
        match env.tokenResult with
        | Except.error e => Except.error ((500, e), db, store)
        | Except.ok _ =>
          if env.identity.status != 200 then
            Except.error ((env.identity.status, "Failed to fetch user data"), db, store)
          else
            let uid := env.identity.body.id
            let db1 := upsertUser db uid env.identity.body.username
            if env.guildFetch.status != 200 then
              Except.error ((env.guildFetch.status, "Failed to fetch guilds"), db1, store)
            else
              let guilds := env.guildFetch.body
              let db2 := upsertServers db1 guilds
              let store2 := sessionPut st ⟨env.host, uid, guilds⟩ store
              Except.ok
                (CallbackResult.redirect
                    ("http://localhost:3000/auth-success?state=" ++ st),
                  db2, store2)

/-- The response every failed callback produces: the handler's
`except Exception` clause catches each exception raised in the `try` block
— the handler's own `HTTPException`s included — and re-raises
`HTTPException(400, "Authentication failed")`. -/
def authFailed : CallbackResult := CallbackResult.httpError 400 "Authentication failed"

/-- `GET /auth/callback` (`auth_callback`) as observed on the wire: the
`try` block wrapped in the catch-all that collapses every failure to
`authFailed`, keeping whatever database/session state was already
committed. -/
def auth_callback (env : CallbackEnv) (state : Option String)
    (db : DB) (store : SessionStore) : CallbackResult × DB × SessionStore :=
  match auth_callback_try env state db store with
  | Except.ok r => r
  | Except.error (_, db2, store2) => (authFailed, db2, store2)

/-! ## Concrete instances used by the witnesses and counterexamples -/

/-- The empty broker database. -/
def emptyDB : DB := ⟨[], [], []⟩

/-- The message rows stored under key `(u, s)`. -/
def messagesFor (db : DB) (u s : Int) : List MessageRec :=
  db.messages.filter (msgKeyMatch u s)

/-- A concrete session store: token `"tok"` bound to host `"127.0.0.1"`
for user 42 with one raw guild. -/
def demoStore : SessionStore := [("tok", ⟨"127.0.0.1", 42, [⟨7, "G", []⟩]⟩)]

/-- A gateway stub whose reconciliation call succeeds. -/
def demoGw : List RawGuild → Except String Json := fun _ => Except.ok (Json.obj [])

/-- The gateway membership state used by the gateway witnesses: one joined
guild, id 5, with channel 100 and member 42. -/
def demoBot : BotState := [⟨5, "Guild", [⟨100, "general"⟩], [⟨42, "alice"⟩]⟩]

/-- A second snapshot of the demo gateway state: same single guild id 5,
different channel and member data. -/
def demoBotSnap : BotState := [⟨5, "Guild", [⟨100, "general"⟩, ⟨101, "random"⟩], []⟩]

/-- The raw descriptor list used by the reconciliation witnesses: guild 5
(joined by the gateway) and guild 77 (not joined). -/
def demoRaw : List RawGuild := [⟨5, "RawName", [("icon", "abc")]⟩, ⟨77, "Ghost", []⟩]

/-- The callback environment of the mismatch counterexample: login bound
state `"expected"`, healthy provider. -/
def mismatchEnv : CallbackEnv :=
  ⟨some "expected", Except.ok "tok", ⟨200, 42, "alice"⟩, ⟨200, []⟩, "127.0.0.1"⟩

/-- A callback environment whose identity fetch answers 503. -/
def upstreamEnv : CallbackEnv :=
  ⟨some "expected", Except.ok "tok", ⟨503, 42, "alice"⟩, ⟨200, []⟩, "127.0.0.1"⟩

/-! ## Helper lemmas about the message table -/

theorem msgKeyMatch_eq (u s : Int) (m : MessageRec) (h : msgKeyMatch u s m = true) :
    m.user_id = u ∧ m.server_id = s := by
  simpa [msgKeyMatch] using h

@[simp] theorem msgKeyMatch_self (u s : Int) (c : String) :
    msgKeyMatch u s ⟨u, s, c⟩ = true := by
  simp [msgKeyMatch]

theorem find?_setFirstContent (u s : Int) (c : String) :
    ∀ l : List MessageRec, (List.find? (msgKeyMatch u s) l).isSome = true →
      List.find? (msgKeyMatch u s) (setFirstContent u s c l) = some ⟨u, s, c⟩ := by
  intro l
  induction l with
  | nil => intro h; simp [List.find?] at h
  | cons m rest ih =>
    intro h
    by_cases hm : msgKeyMatch u s m
    · obtain ⟨hu, hs⟩ := msgKeyMatch_eq u s m hm
      have hrec : ({ m with content := c } : MessageRec) = ⟨u, s, c⟩ := by
        cases m
        simp_all
      rw [setFirstContent, if_pos hm, hrec]
      simp
    · have hm2 : msgKeyMatch u s m = false := by simpa using hm
      have h2 : (List.find? (msgKeyMatch u s) rest).isSome = true := by
        simpa [List.find?_cons, hm2] using h
      rw [setFirstContent, if_neg hm]
      simp [List.find?_cons, hm2, ih h2]

theorem find?_append_absent (u s : Int) (c : String) :
    ∀ l : List MessageRec, List.find? (msgKeyMatch u s) l = none →
      List.find? (msgKeyMatch u s) (l ++ [⟨u, s, c⟩]) = some ⟨u, s, c⟩ := by
  intro l
  induction l with
  | nil => intro _; simp [List.find?]
  | cons m rest ih =>
    intro h
    have hm : msgKeyMatch u s m = false := by
      by_cases hb : msgKeyMatch u s m
      · simp [List.find?_cons, hb] at h
      · simpa using hb
    have h2 : List.find? (msgKeyMatch u s) rest = none := by
      simpa [List.find?_cons, hm] using h
    simp [List.find?_cons, hm, ih h2]

/-- C5: for every user id `u`, server id `s`, and content string `c`,
`save(u,s,c)` followed by `get(u,s)` returns `c`; and for every `(u,s)`
with an existing message record, `reset(u,s)` followed by `get(u,s)`
returns `"Default message"`. -/
theorem message_round_trip (db : DB) (u s : Int) (c : String) :
    get_message (save_message db u s c).2 u s =
      ⟨200, Json.obj [("status", Json.str "success"), ("content", Json.str c)]⟩
    ∧ ((findMessage db u s).isSome = true →
      get_message (reset_message db u s).2 u s =
        ⟨200, Json.obj [("status", Json.str "success"),
          ("content", Json.str "Default message")]⟩) := by
  constructor
  · cases hf : List.find? (msgKeyMatch u s) db.messages with
    | some m =>
        have hs : (List.find? (msgKeyMatch u s) db.messages).isSome = true := by
          simp [hf]
        simp [get_message, save_message, findMessage, hf,
          find?_setFirstContent u s c db.messages hs]
    | none =>
        simp [get_message, save_message, findMessage, hf,
          find?_append_absent u s c db.messages hf]
  · intro h
    cases hf : List.find? (msgKeyMatch u s) db.messages with
    | some m =>
        have hs : (List.find? (msgKeyMatch u s) db.messages).isSome = true := by
          simp [hf]
        simp [get_message, reset_message, findMessage, hf,
          find?_setFirstContent u s "Default message" db.messages hs]
    | none =>
        simp [findMessage, hf] at h

/-- Witness for C5 at a one-row store. -/
theorem message_round_trip_witness :
    get_message (save_message ⟨[], [], [⟨1, 2, "old"⟩]⟩ 1 2 "hello").2 1 2 =
      ⟨200, Json.obj [("status", Json.str "success"), ("content", Json.str "hello")]⟩
    ∧ get_message (reset_message ⟨[], [], [⟨1, 2, "old"⟩]⟩ 1 2).2 1 2 =
      ⟨200, Json.obj [("status", Json.str "success"),
        ("content", Json.str "Default message")]⟩ :=
  ⟨(message_round_trip ⟨[], [], [⟨1, 2, "old"⟩]⟩ 1 2 "hello").1,
   (message_round_trip ⟨[], [], [⟨1, 2, "old"⟩]⟩ 1 2 "hello").2 (by decide)⟩

theorem msgKeyMatch_ne (u1 s1 u2 s2 : Int) (m : MessageRec)
    (hne : (u1, s1) ≠ (u2, s2)) (h1 : msgKeyMatch u1 s1 m = true) :
    msgKeyMatch u2 s2 m = false := by
  obtain ⟨hu, hs⟩ := msgKeyMatch_eq u1 s1 m h1
  by_cases h2 : msgKeyMatch u2 s2 m
  · obtain ⟨hu2, hs2⟩ := msgKeyMatch_eq u2 s2 m h2
    exact absurd (by rw [← hu, ← hs, ← hu2, ← hs2]) hne
  · simpa using h2

theorem filter_setFirstContent (u1 s1 u2 s2 : Int) (c : String)
    (hne : (u1, s1) ≠ (u2, s2)) :
    ∀ l : List MessageRec,
      List.filter (msgKeyMatch u2 s2) (setFirstContent u1 s1 c l) =
        List.filter (msgKeyMatch u2 s2) l := by
  intro l
  induction l with
  | nil => rfl
  | cons m rest ih =>
    by_cases hm : msgKeyMatch u1 s1 m
    · have hm2 : msgKeyMatch u2 s2 m = false := msgKeyMatch_ne u1 s1 u2 s2 m hne hm
      have hm2c : msgKeyMatch u2 s2 { m with content := c } = false := by
        by_cases hb : msgKeyMatch u2 s2 { m with content := c }
        · obtain ⟨hu2, hs2⟩ := msgKeyMatch_eq u2 s2 _ hb
          obtain ⟨hu, hs⟩ := msgKeyMatch_eq u1 s1 m hm
          exact absurd (by simp_all) hne
        · simpa using hb
      rw [setFirstContent, if_pos hm]
      simp [List.filter_cons, hm2, hm2c]
    · rw [setFirstContent, if_neg hm]
      simp [List.filter_cons, ih]

/-- C10: a `save_message` call for `(u1, s1)` leaves the message rows of
every other key `(u2, s2)` unchanged in existence and content, and leaves
the `users` and `servers` tables unchanged. -/
theorem save_message_frame (db : DB) (u1 s1 : Int) (c : String) (u2 s2 : Int)
    (hne : (u1, s1) ≠ (u2, s2)) :
    messagesFor (save_message db u1 s1 c).2 u2 s2 = messagesFor db u2 s2
    ∧ (save_message db u1 s1 c).2.users = db.users
    ∧ (save_message db u1 s1 c).2.servers = db.servers := by
  have hflat : msgKeyMatch u2 s2 (⟨u1, s1, c⟩ : MessageRec) = false :=
    msgKeyMatch_ne u1 s1 u2 s2 _ hne (msgKeyMatch_self u1 s1 c)
  refine ⟨?_, ?_, ?_⟩
  · cases hf : List.find? (msgKeyMatch u1 s1) db.messages with
    | some m =>
        simp [messagesFor, save_message, findMessage, hf,
          filter_setFirstContent u1 s1 u2 s2 c hne db.messages]
    | none =>
        simp [messagesFor, save_message, findMessage, hf, List.filter_append, hflat]
  · cases hf : List.find? (msgKeyMatch u1 s1) db.messages <;>
      simp [save_message, findMessage, hf]
  · cases hf : List.find? (msgKeyMatch u1 s1) db.messages <;>
      simp [save_message, findMessage, hf]

/-- Witness for C10: saving under `(1, 2)` does not disturb the row keyed
`(3, 4)` nor the other tables. -/
theorem save_message_frame_witness :
    messagesFor (save_message ⟨[⟨9, "bob"⟩], [⟨8, "srv"⟩], [⟨3, 4, "keep"⟩]⟩ 1 2 "new").2 3 4 =
      messagesFor ⟨[⟨9, "bob"⟩], [⟨8, "srv"⟩], [⟨3, 4, "keep"⟩]⟩ 3 4
    ∧ (save_message ⟨[⟨9, "bob"⟩], [⟨8, "srv"⟩], [⟨3, 4, "keep"⟩]⟩ 1 2 "new").2.users =
      [⟨9, "bob"⟩]
    ∧ (save_message ⟨[⟨9, "bob"⟩], [⟨8, "srv"⟩], [⟨3, 4, "keep"⟩]⟩ 1 2 "new").2.servers =
      [⟨8, "srv"⟩] :=
  save_message_frame ⟨[⟨9, "bob"⟩], [⟨8, "srv"⟩], [⟨3, 4, "keep"⟩]⟩ 1 2 "new" 3 4 (by decide)

/-- C6 counterexample: on a `(user, guild)` pair with no message record,
`GET /message/get` answers 500 (the handler dereferences `None.content`),
not 404, and `POST /message/send` answers 500 (its 404 `HTTPException` is
swallowed by its own catch-all), not 404; only `reset` answers 404. -/
theorem message_missing_cex :
    (get_message emptyDB 1 2).status_code = 500
    ∧ (get_message emptyDB 1 2).status_code ≠ 404
    ∧ (send_message emptyDB 1 2 3 (fun _ _ _ _ => Except.error "down")).1.status_code = 500
    ∧ (send_message emptyDB 1 2 3 (fun _ _ _ _ => Except.error "down")).1.status_code ≠ 404 := by
  refine ⟨rfl, by decide, rfl, by decide⟩

/-- C6 amended: on a `(user, guild)` pair with no message record, `reset`
answers 404 and writes nothing, while `get` and `send` each answer 500
through their exception paths (attribute error on the missing row, resp.
the swallowed 404 `HTTPException`); all three leave the store unchanged and
none creates a record. -/
theorem message_missing_behaviour (db : DB) (u s ch : Int)
    (gw : Int → Int → Int → String → Except String (Nat × Json))
    (h : findMessage db u s = none) :
    reset_message db u s =
      (⟨404, Json.obj [("status", Json.str "message not found")]⟩, db)
    ∧ get_message db u s = ⟨500, errorBody attrErrorNone⟩
    ∧ send_message db u s ch gw = (⟨500, errorBody notFoundExnText⟩, db) := by
  refine ⟨?_, ?_, ?_⟩ <;> simp [reset_message, get_message, send_message, h]

/-- Witness for C6 (amended) on the empty store. -/
theorem message_missing_behaviour_witness :
    reset_message emptyDB 1 2 =
      (⟨404, Json.obj [("status", Json.str "message not found")]⟩, emptyDB)
    ∧ get_message emptyDB 1 2 = ⟨500, errorBody attrErrorNone⟩
    ∧ send_message emptyDB 1 2 3 (fun _ _ _ _ => Except.error "down") =
      (⟨500, errorBody notFoundExnText⟩, emptyDB) :=
  message_missing_behaviour emptyDB 1 2 3 (fun _ _ _ _ => Except.error "down") rfl

/-! ## C1: session retrieval and host binding -/

/-- C1: for a session bound to host `sess.host` under token `tok`, and a
gateway whose reconciliation call succeeds, `get_session` answers the 200
view (stored user id plus reconciled guilds) exactly when the requester
host equals the bound host; a mismatching host and a token absent from the
store are both answered with the one shared `unauthorized_response` (401,
identical body in both failure cases). -/
theorem get_session_host_binding
    (store : SessionStore) (tok : String) (sess : SessionRec)
    (gw : List RawGuild → Except String Json) (j : Json) (h : String)
    (hT : lookupSession store tok = some sess)
    (hne : tok ≠ "")
    (hgw : gw sess.guilds = Except.ok j) :
    (get_session store (some tok) h gw =
        HandlerOutcome.response (sessionSuccess sess.user_id j) ↔ h = sess.host)
    ∧ (h ≠ sess.host →
        get_session store (some tok) h gw = HandlerOutcome.response unauthorized_response)
    ∧ (∀ t2, lookupSession store t2 = none →
        get_session store (some t2) h gw = HandlerOutcome.response unauthorized_response) := by
  have hbe : (tok == "") = false := by simpa using hne
  refine ⟨?_, ?_, ?_⟩
  · by_cases hh : h = sess.host
    · have hb : (sess.host != h) = false := by simp [hh]
      simp [get_session, hbe, hT, hb, hgw, hh]
    · have hb : (sess.host != h) = true := by
        simp [bne_iff_ne]
        exact fun hx => hh hx.symm
      simp [get_session, hbe, hT, hb, hh, unauthorized_response, sessionSuccess]
  · intro hh
    have hb : (sess.host != h) = true := by
      simp [bne_iff_ne]
      exact fun hx => hh hx.symm
    simp [get_session, hbe, hT, hb]
  · intro t2 ht2
    by_cases hb2 : (t2 == "") = true
    · simp [get_session, hb2]
    · simp [get_session, hb2, ht2]

/-- Witness for C1: matching host succeeds, wrong host and unknown token
each get the shared 401. -/
theorem get_session_host_binding_witness :
    get_session demoStore (some "tok") "127.0.0.1" demoGw =
      HandlerOutcome.response (sessionSuccess 42 (Json.obj []))
    ∧ get_session demoStore (some "tok") "10.0.0.9" demoGw =
      HandlerOutcome.response unauthorized_response
    ∧ get_session demoStore (some "other") "127.0.0.1" demoGw =
      HandlerOutcome.response unauthorized_response :=
  ⟨(get_session_host_binding demoStore "tok" ⟨"127.0.0.1", 42, [⟨7, "G", []⟩]⟩
      demoGw (Json.obj []) "127.0.0.1" rfl (by decide) rfl).1.mpr rfl,
   (get_session_host_binding demoStore "tok" ⟨"127.0.0.1", 42, [⟨7, "G", []⟩]⟩
      demoGw (Json.obj []) "10.0.0.9" rfl (by decide) rfl).2.1 (by decide),
   (get_session_host_binding demoStore "tok" ⟨"127.0.0.1", 42, [⟨7, "G", []⟩]⟩
      demoGw (Json.obj []) "127.0.0.1" rfl (by decide) rfl).2.2 "other" rfl⟩

/-! ## C7: gateway message dispatch -/

/-- C7: `handle_send` posts the notification exactly when the target
server is known to the gateway, the user is a member of it, and the channel
exists within it; each missing entity yields a 404 whose body names the
missing entity, and nothing is posted in any failure case. -/
theorem handle_send_spec (st : BotState) (u s ch : Int) (c : String) :
    ((handle_send st u s ch c).2.isSome = true ↔
      ∃ g, get_guild st s = some g ∧ (get_member g u).isSome = true
        ∧ (get_channel g ch).isSome = true)
    ∧ ((handle_send st u s ch c).2 = some ⟨ch, u, c⟩ ∨ (handle_send st u s ch c).2 = none)
    ∧ (get_guild st s = none →
        handle_send st u s ch c = (⟨404, errorBody "Server not found"⟩, none))
    ∧ (∀ g, get_guild st s = some g → get_member g u = none →
        handle_send st u s ch c = (⟨404, errorBody "User not found"⟩, none))
    ∧ (∀ g, get_guild st s = some g → (get_member g u).isSome = true →
        get_channel g ch = none →
        handle_send st u s ch c = (⟨404, errorBody "System channel not found"⟩, none)) := by
  refine ⟨?_, ?_, ?_, ?_, ?_⟩
  · cases hg : get_guild st s with
    | none => simp [handle_send, hg]
    | some g =>
      cases hm : get_member g u with
      | none => simp [handle_send, hg, hm]
      | some mem =>
        cases hc : get_channel g ch with
        | none => simp [handle_send, hg, hm, hc]
        | some chan => simp [handle_send, hg, hm, hc]
  · cases hg : get_guild st s with
    | none => simp [handle_send, hg]
    | some g =>
      cases hm : get_member g u with
      | none => simp [handle_send, hg, hm]
      | some mem =>
        cases hc : get_channel g ch with
        | none => simp [handle_send, hg, hm, hc]
        | some chan => simp [handle_send, hg, hm, hc]
  · intro hg
    simp [handle_send, hg]
  · intro g hg hm
    simp [handle_send, hg, hm]
  · intro g hg hm hc
    cases hmem : get_member g u with
    | none => rw [hmem] at hm; simp at hm
    | some mem => simp [handle_send, hg, hmem, hc]

/-- Witness for C7: the full send succeeds; a wrong server, user or
channel id each produce the naming 404 and no post. -/
theorem handle_send_spec_witness :
    (handle_send demoBot 42 5 100 "hi").2.isSome = true
    ∧ handle_send demoBot 42 99 100 "hi" = (⟨404, errorBody "Server not found"⟩, none)
    ∧ handle_send demoBot 7 5 100 "hi" = (⟨404, errorBody "User not found"⟩, none)
    ∧ handle_send demoBot 42 5 999 "hi" =
        (⟨404, errorBody "System channel not found"⟩, none) :=
  ⟨(handle_send_spec demoBot 42 5 100 "hi").1.mpr
      ⟨⟨5, "Guild", [⟨100, "general"⟩], [⟨42, "alice"⟩]⟩, rfl, rfl, rfl⟩,
   (handle_send_spec demoBot 42 99 100 "hi").2.2.1 rfl,
   (handle_send_spec demoBot 7 5 100 "hi").2.2.2.1
      ⟨5, "Guild", [⟨100, "general"⟩], [⟨42, "alice"⟩]⟩ rfl rfl,
   (handle_send_spec demoBot 42 5 999 "hi").2.2.2.2
      ⟨5, "Guild", [⟨100, "general"⟩], [⟨42, "alice"⟩]⟩ rfl rfl rfl⟩

/-! ## C2, C8, C9: guild reconciliation -/

theorem dictInsert_mem (k0 : Int) (v0 : ApprovedEntry) :
    ∀ (l : List (Int × ApprovedEntry)) (k : Int) (e : ApprovedEntry),
      (k, e) ∈ dictInsert k0 v0 l → (k = k0 ∧ e = v0) ∨ (k, e) ∈ l := by
  intro l
  induction l with
  | nil =>
    intro k e h
    simp [dictInsert] at h
    exact Or.inl h
  | cons p rest ih =>
    intro k e h
    obtain ⟨k2, v2⟩ := p
    by_cases hk : (k2 == k0)
    · rw [dictInsert, if_pos hk] at h
      rcases List.mem_cons.mp h with h1 | h1
      · left
        exact ⟨congrArg Prod.fst h1, congrArg Prod.snd h1⟩
      · right
        exact List.mem_cons_of_mem _ h1
    · rw [dictInsert, if_neg hk] at h
      rcases List.mem_cons.mp h with h1 | h1
      · right
        exact List.mem_cons.mpr (Or.inl h1)
      · rcases ih k e h1 with h2 | h2
        · exact Or.inl h2
        · right
          exact List.mem_cons_of_mem _ h2

/-- Provenance of the `approved_guild` dict: every binding produced by the
reconciliation loop either was in the starting accumulator or records a raw
guild whose id the gateway resolves, enriched from that live guild. -/
theorem overhaulLoop_mem (st : BotState) :
    ∀ (raw : List RawGuild) (acc : List (Int × ApprovedEntry)) (k : Int) (e : ApprovedEntry),
      (k, e) ∈ overhaulLoop st raw acc →
      (k, e) ∈ acc ∨
        ∃ g, g ∈ raw ∧ ∃ bg, get_guild st g.id = some bg ∧ k = g.id ∧ e = mkEntry g bg := by
  intro raw
  induction raw with
  | nil =>
    intro acc k e h
    exact Or.inl h
  | cons g rest ih =>
    intro acc k e h
    cases hg : get_guild st g.id with
    | none =>
      simp only [overhaulLoop, hg] at h
      rcases ih _ k e h with h1 | h1
      · exact Or.inl h1
      · obtain ⟨g2, hg2, rest2⟩ := h1
        exact Or.inr ⟨g2, List.mem_cons_of_mem _ hg2, rest2⟩
    | some bg =>
      simp only [overhaulLoop, hg] at h
      rcases ih _ k e h with h1 | h1
      · rcases dictInsert_mem g.id (mkEntry g bg) acc k e h1 with h2 | h2
        · exact Or.inr ⟨g, List.mem_cons_self g rest, bg, hg, h2.1, h2.2⟩
        · exact Or.inl h2
      · obtain ⟨g2, hg2, rest2⟩ := h1
        exact Or.inr ⟨g2, List.mem_cons_of_mem _ hg2, rest2⟩

/-- C2: every guild id in the approved mapping returned by
`handle_guild_request` is the id of some guild of the raw input list and is
a guild the gateway currently resolves (the approved set filters the raw
list against live membership, never extending it). -/
theorem reconcile_sound (st : BotState) (raw : List RawGuild) (k : Int) (e : ApprovedEntry)
    (hk : (k, e) ∈ handle_guild_request st raw) :
    (∃ g, g ∈ raw ∧ g.id = k) ∧ (get_guild st k).isSome = true := by
  rcases overhaulLoop_mem st raw [] k e hk with h | h
  · simp at h
  · obtain ⟨g, hmem, bg, hbg, hkid, _⟩ := h
    refine ⟨⟨g, hmem, hkid.symm⟩, ?_⟩
    rw [hkid, hbg]
    rfl

/-- Witness for C2 about the one approved binding of the demo state. -/
theorem reconcile_sound_witness :
    (∃ g, g ∈ demoRaw ∧ g.id = 5) ∧ (get_guild demoBot 5).isSome = true :=
  reconcile_sound demoBot demoRaw 5
    (mkEntry ⟨5, "RawName", [("icon", "abc")]⟩ ⟨5, "Guild", [⟨100, "general"⟩], [⟨42, "alice"⟩]⟩)
    (by decide)

/-- C9: in every approved entry, `name` is copied from the client-supplied
raw descriptor (it equals the embedded descriptor's name), the raw
descriptor itself is embedded unchanged under `guild`, and only `channels`
and `members` are derived from the gateway's live guild data. -/
theorem reconcile_entry_fields (st : BotState) (raw : List RawGuild) (k : Int)
    (e : ApprovedEntry) (hk : (k, e) ∈ handle_guild_request st raw) :
    e.name = e.guild.name ∧ e.guild ∈ raw ∧
      ∃ bg, get_guild st k = some bg ∧
        e.channels = channelEntries bg ∧ e.members = memberEntries bg := by
  rcases overhaulLoop_mem st raw [] k e hk with h | h
  · simp at h
  · obtain ⟨g, hmem, bg, hbg, hkid, he⟩ := h
    subst he
    subst hkid
    exact ⟨rfl, hmem, bg, hbg, rfl, rfl⟩

/-- Witness for C9 on the demo state: the approved entry for guild 5
carries the raw name `"RawName"`, not the live name `"Guild"`. -/
theorem reconcile_entry_fields_witness :
    (mkEntry ⟨5, "RawName", [("icon", "abc")]⟩
        ⟨5, "Guild", [⟨100, "general"⟩], [⟨42, "alice"⟩]⟩).name =
      (mkEntry ⟨5, "RawName", [("icon", "abc")]⟩
        ⟨5, "Guild", [⟨100, "general"⟩], [⟨42, "alice"⟩]⟩).guild.name
    ∧ (mkEntry ⟨5, "RawName", [("icon", "abc")]⟩
        ⟨5, "Guild", [⟨100, "general"⟩], [⟨42, "alice"⟩]⟩).guild ∈ demoRaw
    ∧ ∃ bg, get_guild demoBot 5 = some bg ∧
        (mkEntry ⟨5, "RawName", [("icon", "abc")]⟩
          ⟨5, "Guild", [⟨100, "general"⟩], [⟨42, "alice"⟩]⟩).channels = channelEntries bg ∧
        (mkEntry ⟨5, "RawName", [("icon", "abc")]⟩
          ⟨5, "Guild", [⟨100, "general"⟩], [⟨42, "alice"⟩]⟩).members = memberEntries bg :=
  reconcile_entry_fields demoBot demoRaw 5
    (mkEntry ⟨5, "RawName", [("icon", "abc")]⟩ ⟨5, "Guild", [⟨100, "general"⟩], [⟨42, "alice"⟩]⟩)
    (by decide)

theorem approvedIds_dictInsert (k : Int) (v1 v2 : ApprovedEntry) :
    ∀ l1 l2, approvedIds l1 = approvedIds l2 →
      approvedIds (dictInsert k v1 l1) = approvedIds (dictInsert k v2 l2) := by
  intro l1
  induction l1 with
  | nil =>
    intro l2 h
    cases l2 with
    | nil => rfl
    | cons q rest2 => simp [approvedIds] at h
  | cons p rest ih =>
    intro l2 h
    cases l2 with
    | nil => simp [approvedIds] at h
    | cons q rest2 =>
      obtain ⟨k1, u1⟩ := p
      obtain ⟨k2, u2⟩ := q
      simp only [approvedIds, List.map_cons, List.cons.injEq] at h
      obtain ⟨hk12, htl⟩ := h
      by_cases hkk : (k1 == k)
      · have hkk2 : (k2 == k) = true := by rw [← hk12]; exact hkk
        rw [dictInsert, if_pos hkk, dictInsert, if_pos hkk2]
        simp only [approvedIds, List.map_cons, List.cons.injEq]
        exact ⟨trivial, htl⟩
      · have hkk2 : ¬ (k2 == k) = true := by rw [← hk12]; exact hkk
        rw [dictInsert, if_neg hkk, dictInsert, if_neg hkk2]
        simp only [approvedIds, List.map_cons, List.cons.injEq]
        exact ⟨hk12, ih rest2 htl⟩

theorem overhaulLoop_ids (st1 st2 : BotState)
    (hmem : ∀ i, ((get_guild st1 i).isSome = true ↔ (get_guild st2 i).isSome = true)) :
    ∀ (raw : List RawGuild) (acc1 acc2 : List (Int × ApprovedEntry)),
      approvedIds acc1 = approvedIds acc2 →
      approvedIds (overhaulLoop st1 raw acc1) = approvedIds (overhaulLoop st2 raw acc2) := by
  intro raw
  induction raw with
  | nil =>
    intro acc1 acc2 h
    simpa [overhaulLoop] using h
  | cons g rest ih =>
    intro acc1 acc2 h
    cases hg1 : get_guild st1 g.id with
    | none =>
      have hg2 : get_guild st2 g.id = none := by
        cases hx : get_guild st2 g.id with
        | none => rfl
        | some b =>
          have hiff := hmem g.id
          rw [hg1, hx] at hiff
          simp at hiff
      simp only [overhaulLoop, hg1, hg2]
      exact ih _ _ h
    | some bg1 =>
      obtain ⟨bg2, hg2⟩ : ∃ bg2, get_guild st2 g.id = some bg2 := by
        cases hx : get_guild st2 g.id with
        | none =>
          have hiff := hmem g.id
          rw [hg1, hx] at hiff
          simp at hiff
        | some b => exact ⟨b, rfl⟩
      simp only [overhaulLoop, hg1, hg2]
      exact ih _ _ (approvedIds_dictInsert g.id _ _ acc1 acc2 h)

/-- C8: for a fixed raw guild list, the approved guild-id set produced by
`handle_guild_request` depends only on which ids the gateway resolves: two
gateway snapshots with the same membership (channels and members free to
differ) yield the same approved id list, so a repeated call with no
membership change is idempotent on its output set. -/
theorem reconcile_idempotent (st1 st2 : BotState) (raw : List RawGuild)
    (hmem : ∀ i, ((get_guild st1 i).isSome = true ↔ (get_guild st2 i).isSome = true)) :
    approvedIds (handle_guild_request st1 raw) = approvedIds (handle_guild_request st2 raw) :=
  overhaulLoop_ids st1 st2 hmem raw [] [] rfl

/-- Witness for C8 across two snapshots with identical membership. -/
theorem reconcile_idempotent_witness :
    approvedIds (handle_guild_request demoBot demoRaw) =
      approvedIds (handle_guild_request demoBotSnap demoRaw) :=
  reconcile_idempotent demoBot demoBotSnap demoRaw
    (by
      intro i
      by_cases h5 : ((5 : Int) == i)
      · simp [demoBot, demoBotSnap, get_guild, List.find?, h5]
      · simp [demoBot, demoBotSnap, get_guild, List.find?, h5])

/-! ## C3: callback failure statuses -/

/-- A successful callback of `auth_callback_try` implies every guard and
upstream check passed. -/
theorem auth_callback_try_ok (env : CallbackEnv) (state : Option String)
    (db : DB) (store : SessionStore) (r : CallbackResult × DB × SessionStore)
    (h : auth_callback_try env state db store = Except.ok r) :
    falsyState state = false ∧ env.oauth_state = state
      ∧ env.identity.status = 200 ∧ env.guildFetch.status = 200 := by
  cases state with
  | none => simp [auth_callback_try, falsyState] at h
  | some st =>
    by_cases hemp : (st == "") = true
    · simp [auth_callback_try, falsyState, hemp] at h
    · have hf : falsyState (some st) = false := by simp [falsyState, hemp]
      by_cases hos1 : falsyState env.oauth_state = true
      · simp [auth_callback_try, hf, hos1] at h
      · have hos1f : falsyState env.oauth_state = false := by simpa using hos1
        by_cases hos2 : env.oauth_state = some st
        · cases htk : env.tokenResult with
          | error e =>
            simp [auth_callback_try, hf, hos1f, hos2, htk] at h
          | ok tk =>
            by_cases hid : env.identity.status = 200
            · by_cases hgl : env.guildFetch.status = 200
              · exact ⟨hf, hos2, hid, hgl⟩
              · simp [auth_callback_try, hf, hos1f, hos2, htk, hid, hgl] at h
            · simp [auth_callback_try, hf, hos1f, hos2, htk, hid] at h
        · simp [auth_callback_try, hf, hos1f, hos2] at h

/-- C3 counterexample: a provider-returned state differing from the bound
state is answered with HTTP 400, not the 401 the claim assigns to
`StateMismatch`; and an identity fetch failing with 503 is also answered
400, not the propagated upstream status (or 500) the claim requires. -/
theorem auth_callback_cex :
    resultStatus (auth_callback mismatchEnv (some "other") emptyDB []).1 = some 400
    ∧ (some 400 : Option Nat) ≠ some 401
    ∧ resultStatus (auth_callback upstreamEnv (some "expected") emptyDB []).1 = some 400
    ∧ (some 400 : Option Nat) ≠ some 503
    ∧ (some 400 : Option Nat) ≠ some 500 :=
  ⟨rfl, by decide, rfl, by decide, by decide⟩

/-- C3 amended: `auth_callback` answers HTTP 400 with detail
`"Authentication failed"` in every failure case — absent state, state
mismatch, and any non-success identity or guild fetch — because its
catch-all `except` clause converts every exception raised in the `try`
block, its own `HTTPException`s included, to that one response. -/
theorem auth_callback_failure_statuses (env : CallbackEnv) (state : Option String)
    (db : DB) (store : SessionStore) :
    (falsyState state = true → (auth_callback env state db store).1 = authFailed)
    ∧ (env.oauth_state ≠ state → (auth_callback env state db store).1 = authFailed)
    ∧ (env.identity.status ≠ 200 → (auth_callback env state db store).1 = authFailed)
    ∧ (env.guildFetch.status ≠ 200 → (auth_callback env state db store).1 = authFailed) := by
  refine ⟨?_, ?_, ?_, ?_⟩ <;> intro hcond
  · cases htry : auth_callback_try env state db store with
    | error err =>
      obtain ⟨e2, db2, store2⟩ := err
      simp [auth_callback, htry]
    | ok r =>
      obtain ⟨h1, _, _, _⟩ := auth_callback_try_ok env state db store r htry
      rw [hcond] at h1
      simp at h1
  · cases htry : auth_callback_try env state db store with
    | error err =>
      obtain ⟨e2, db2, store2⟩ := err
      simp [auth_callback, htry]
    | ok r =>
      obtain ⟨_, h2, _, _⟩ := auth_callback_try_ok env state db store r htry
      exact absurd h2 hcond
  · cases htry : auth_callback_try env state db store with
    | error err =>
      obtain ⟨e2, db2, store2⟩ := err
      simp [auth_callback, htry]
    | ok r =>
      obtain ⟨_, _, h3, _⟩ := auth_callback_try_ok env state db store r htry
      exact absurd h3 hcond
  · cases htry : auth_callback_try env state db store with
    | error err =>
      obtain ⟨e2, db2, store2⟩ := err
      simp [auth_callback, htry]
    | ok r =>
      obtain ⟨_, _, _, h4⟩ := auth_callback_try_ok env state db store r htry
      exact absurd h4 hcond

/-- Witness for C3 (amended): a missing state, a mismatching state and a
503 identity fetch each produce the single 400 response. -/
theorem auth_callback_failure_statuses_witness :
    (auth_callback mismatchEnv none emptyDB []).1 = authFailed
    ∧ (auth_callback mismatchEnv (some "other") emptyDB []).1 = authFailed
    ∧ (auth_callback upstreamEnv (some "expected") emptyDB []).1 = authFailed :=
  ⟨(auth_callback_failure_statuses mismatchEnv none emptyDB []).1 rfl,
   (auth_callback_failure_statuses mismatchEnv (some "other") emptyDB []).2.1 (by decide),
   (auth_callback_failure_statuses upstreamEnv (some "expected") emptyDB []).2.2.1 (by decide)⟩

/-! ## C4: handler exception boundary -/

/-- C4 counterexample: `get_session` has no `try`/`except`; when its
gateway reconciliation call fails, the exception escapes the handler raw
instead of becoming the 500 JSON error response. -/
theorem get_session_uncaught_cex :
    get_session demoStore (some "tok") "127.0.0.1" (fun _ => Except.error "gateway down") =
      HandlerOutcome.uncaught "gateway down"
    ∧ get_session demoStore (some "tok") "127.0.0.1" (fun _ => Except.error "gateway down") ≠
      HandlerOutcome.response ⟨500, errorBody "gateway down"⟩ :=
  ⟨rfl, fun h => nomatch h⟩

/-- C4 amended: the message handlers do convert handler-level exceptions to
the 500 JSON error body at the boundary (shown for `send_message` when its
gateway call fails and for `get_message` when the row dereference fails) —
but `get_session` does not guard its gateway reconciliation call, so that
failure crosses the handler boundary uncaught. -/
theorem handler_boundary
    (db db2 : DB) (u s ch u2 s2 : Int) (m : MessageRec)
    (store : SessionStore) (tok h e msg : String) (sess : SessionRec)
    (hm : findMessage db u s = some m) (hc : (m.content == "") = false)
    (hT : lookupSession store tok = some sess) (hh : sess.host = h) (hne : tok ≠ "")
    (h2 : findMessage db2 u2 s2 = none) :
    send_message db u s ch (fun _ _ _ _ => Except.error msg) = (⟨500, errorBody msg⟩, db)
    ∧ get_message db2 u2 s2 = ⟨500, errorBody attrErrorNone⟩
    ∧ get_session store (some tok) h (fun _ => Except.error e) =
        HandlerOutcome.uncaught e := by
  have hbe : (tok == "") = false := by simpa using hne
  have hb : (sess.host != h) = false := by simp [hh]
  exact ⟨by simp [send_message, hm, hc],
    by simp [get_message, h2],
    by simp [get_session, hbe, hT, hb]⟩

/-- Witness for C4 (amended) at concrete stores. -/
theorem handler_boundary_witness :
    send_message ⟨[], [], [⟨1, 2, "hello"⟩]⟩ 1 2 3 (fun _ _ _ _ => Except.error "boom") =
      (⟨500, errorBody "boom"⟩, ⟨[], [], [⟨1, 2, "hello"⟩]⟩)
    ∧ get_message emptyDB 4 5 = ⟨500, errorBody attrErrorNone⟩
    ∧ get_session demoStore (some "tok") "127.0.0.1" (fun _ => Except.error "down") =
        HandlerOutcome.uncaught "down" :=
  handler_boundary ⟨[], [], [⟨1, 2, "hello"⟩]⟩ emptyDB 1 2 3 4 5 ⟨1, 2, "hello"⟩
    demoStore "tok" "127.0.0.1" "down" "boom" ⟨"127.0.0.1", 42, [⟨7, "G", []⟩]⟩
    rfl rfl rfl rfl (by decide) rfl
